import Mathlib

/-!
Verification of the shoonyawallet Trezor protocol engine against its
natural-language specification.

The definitions below are a shallow embedding of the TypeScript sources:
bytes are `Nat` values (kept below 256 where the source stores them in a
`Uint8Array`), byte buffers are `List Nat`, and the bounded `while` loops of
the source are embedded as fuel-indexed structural recursions whose fuel is
exactly the source's loop bound.

Embedded source files:
- `src/overlay/src/services/hardware/errors.ts` (`classifyTrezorError`)
- `src/overlay/src/services/hardware/trezor/wire.ts` (`OverlayWire`)
- `src/unnamed/part_010`, a superseded `wire.ts` variant (`PartWire`)
- `src/mobile/src/services/hardware/TrezorBridge.ts` (request loop, retry
  controller, attempt resource handling)
- `src/unnamed/part_011`, a `TrezorBridge.ts` variant with the 10-iteration
  public-key request loop (`Loop11`)
- `src/mobile/src/services/rpc/rpcConfig.ts` / `src/unnamed/part_009`
  (`bip32Path`)
-/

/-- JS `String.prototype.includes`: `strIncludes s sub` is `true` iff `sub`
occurs as a contiguous substring of `s`. -/
def strIncludes (s sub : String) : Bool :=
  s.toList.tails.any fun t => sub.toList.isPrefixOf t

/-- JS `String.prototype.toLowerCase` restricted to the ASCII range used by
the error messages of this codebase: lower-case every character. -/
def lowerStr (s : String) : String :=
  String.mk (s.toList.map Char.toLower)

/-- Error kinds of `src/overlay/src/services/hardware/errors.ts`. -/
inductive TrezorErrorCode
  | PERMISSION_DENIED
  | DEVICE_NOT_FOUND
  | DEVICE_BUSY
  | CANCELLED
  | TRANSPORT
  | UNKNOWN
deriving DecidableEq, Repr

/-- Result record of `classifyTrezorError`. -/
structure ErrorClassification where
  code : TrezorErrorCode
  retryable : Bool
deriving DecidableEq, Repr

/-- First condition of `classifyTrezorError`:
`msg.includes('permission') || msg.includes('not granted') || msg.includes('denied')`. -/
def permHit (msg : String) : Bool :=
  strIncludes msg "permission" || strIncludes msg "not granted" || strIncludes msg "denied"

/-- Second condition of `classifyTrezorError`:
`msg.includes('no device') || msg.includes('device not found') || msg.includes('disconnected')`. -/
def notFoundHit (msg : String) : Bool :=
  strIncludes msg "no device" || strIncludes msg "device not found" || strIncludes msg "disconnected"

/-- Third condition of `classifyTrezorError`:
`msg.includes('busy') || msg.includes('in use')`. -/
def busyHit (msg : String) : Bool :=
  strIncludes msg "busy" || strIncludes msg "in use"

/-- Fourth condition of `classifyTrezorError`:
`msg.includes('cancelled') || msg.includes('canceled') || msg.includes('abort')`. -/
def cancelHit (msg : String) : Bool :=
  strIncludes msg "cancelled" || strIncludes msg "canceled" || strIncludes msg "abort"

/-- Fifth condition of `classifyTrezorError`:
`msg.includes('transport') || msg.includes('usb') || msg.includes('hid') || msg.includes('timeout')`. -/
def transportHit (msg : String) : Bool :=
  strIncludes msg "transport" || strIncludes msg "usb" || strIncludes msg "hid" || strIncludes msg "timeout"

/-- `classifyTrezorError` from `src/overlay/src/services/hardware/errors.ts`:
lower-cases the message and tests the five substring groups in source order;
anything else is `UNKNOWN` and retryable. (`message || ''` is the identity on
actual strings, so it is dropped.) -/
def classifyTrezorError (message : String) : ErrorClassification :=
  let msg := lowerStr message
  if permHit msg then ⟨.PERMISSION_DENIED, false⟩
  else if notFoundHit msg then ⟨.DEVICE_NOT_FOUND, true⟩
  else if busyHit msg then ⟨.DEVICE_BUSY, true⟩
  else if cancelHit msg then ⟨.CANCELLED, false⟩
  else if transportHit msg then ⟨.TRANSPORT, true⟩
  else ⟨.UNKNOWN, true⟩

/-- Claim C6: the error classifier performs case-insensitive substring
classification with the source's case order: a message hitting the
permission/denied phrases classifies as `PERMISSION_DENIED` (not retryable);
otherwise one hitting the no-device/disconnected phrases as
`DEVICE_NOT_FOUND` (retryable); otherwise busy/in-use as `DEVICE_BUSY`
(retryable); otherwise cancelled/aborted as `CANCELLED` (not retryable);
otherwise transport/usb/hid/timeout as `TRANSPORT` (retryable); and any other
string as `UNKNOWN` (retryable). -/
theorem classify_substring_cases (m : String) :
    (permHit (lowerStr m) = true →
      classifyTrezorError m = ⟨.PERMISSION_DENIED, false⟩)
    ∧ (permHit (lowerStr m) = false → notFoundHit (lowerStr m) = true →
      classifyTrezorError m = ⟨.DEVICE_NOT_FOUND, true⟩)
    ∧ (permHit (lowerStr m) = false → notFoundHit (lowerStr m) = false →
      busyHit (lowerStr m) = true →
      classifyTrezorError m = ⟨.DEVICE_BUSY, true⟩)
    ∧ (permHit (lowerStr m) = false → notFoundHit (lowerStr m) = false →
      busyHit (lowerStr m) = false → cancelHit (lowerStr m) = true →
      classifyTrezorError m = ⟨.CANCELLED, false⟩)
    ∧ (permHit (lowerStr m) = false → notFoundHit (lowerStr m) = false →
      busyHit (lowerStr m) = false → cancelHit (lowerStr m) = false →
      transportHit (lowerStr m) = true →
      classifyTrezorError m = ⟨.TRANSPORT, true⟩)
    ∧ (permHit (lowerStr m) = false → notFoundHit (lowerStr m) = false →
      busyHit (lowerStr m) = false → cancelHit (lowerStr m) = false →
      transportHit (lowerStr m) = false →
      classifyTrezorError m = ⟨.UNKNOWN, true⟩) := by
  unfold classifyTrezorError
  refine ⟨?_, ?_, ?_, ?_, ?_, ?_⟩ <;> intros <;> simp_all

/-- Witness for C6: concrete classifications obtained from
`classify_substring_cases` at the strings named by the spec. -/
theorem classify_substring_cases_witness :
    classifyTrezorError "Permission denied" = ⟨.PERMISSION_DENIED, false⟩
    ∧ classifyTrezorError "Device is busy" = ⟨.DEVICE_BUSY, true⟩
    ∧ classifyTrezorError "Timeout" = ⟨.TRANSPORT, true⟩ :=
  ⟨(classify_substring_cases "Permission denied").1 (by decide),
   (classify_substring_cases "Device is busy").2.2.1 (by decide) (by decide) (by decide),
   (classify_substring_cases "Timeout").2.2.2.2.1 (by decide) (by decide) (by decide)
     (by decide) (by decide)⟩

/-- Claim C10: the classifier is total and deterministic (it is a function),
classifies by a fixed precedence — each kind other than
`PERMISSION_DENIED` is produced exactly when its phrase group matches and no
earlier group does — and the retryable flag is determined by the kind alone:
`false` exactly for `PERMISSION_DENIED` and `CANCELLED`. -/
theorem classify_precedence_and_retryable (m : String) :
    ((classifyTrezorError m).retryable = false ↔
      ((classifyTrezorError m).code = .PERMISSION_DENIED
        ∨ (classifyTrezorError m).code = .CANCELLED))
    ∧ ((classifyTrezorError m).code = .PERMISSION_DENIED ↔
      permHit (lowerStr m) = true)
    ∧ ((classifyTrezorError m).code = .DEVICE_NOT_FOUND ↔
      (permHit (lowerStr m) = false ∧ notFoundHit (lowerStr m) = true))
    ∧ ((classifyTrezorError m).code = .DEVICE_BUSY ↔
      (permHit (lowerStr m) = false ∧ notFoundHit (lowerStr m) = false
        ∧ busyHit (lowerStr m) = true))
    ∧ ((classifyTrezorError m).code = .CANCELLED ↔
      (permHit (lowerStr m) = false ∧ notFoundHit (lowerStr m) = false
        ∧ busyHit (lowerStr m) = false ∧ cancelHit (lowerStr m) = true))
    ∧ ((classifyTrezorError m).code = .TRANSPORT ↔
      (permHit (lowerStr m) = false ∧ notFoundHit (lowerStr m) = false
        ∧ busyHit (lowerStr m) = false ∧ cancelHit (lowerStr m) = false
        ∧ transportHit (lowerStr m) = true))
    ∧ ((classifyTrezorError m).code = .UNKNOWN ↔
      (permHit (lowerStr m) = false ∧ notFoundHit (lowerStr m) = false
        ∧ busyHit (lowerStr m) = false ∧ cancelHit (lowerStr m) = false
        ∧ transportHit (lowerStr m) = false)) := by
  unfold classifyTrezorError
  cases hp : permHit (lowerStr m) <;>
    cases hn : notFoundHit (lowerStr m) <;>
    cases hb : busyHit (lowerStr m) <;>
    cases hc : cancelHit (lowerStr m) <;>
    cases ht : transportHit (lowerStr m) <;>
    simp_all

/-- Witness for C10: a message containing both "busy" and "denied"
classifies as `PERMISSION_DENIED`, by the precedence part of
`classify_precedence_and_retryable`. -/
theorem classify_precedence_and_retryable_witness :
    (classifyTrezorError "busy but denied").code = .PERMISSION_DENIED :=
  (classify_precedence_and_retryable "busy but denied").2.1.mpr (by decide)

/-- Logical message after framing is stripped: `{ msgType, payload }`. -/
structure WireMsg where
  msgType : Nat
  payload : List Nat
deriving DecidableEq, Repr

/-- Header format tag of the wire modules (`'A' | 'B'`). -/
inductive HeaderFormat
  | A
  | B
deriving DecidableEq, Repr

/-- Parsed first-frame header of the wire modules. -/
structure WireHeader where
  msgType : Nat
  payloadLen : Nat
  headerLen : Nat
  format : HeaderFormat
deriving DecidableEq, Repr

namespace OverlayWire

/-- `REPORT_SIZE` from `src/overlay/src/services/hardware/trezor/wire.ts`. -/
def REPORT_SIZE : Nat := 64

/-- Zero-padding of a short frame to `REPORT_SIZE` bytes
(`new Uint8Array(size); pad.set(slice)` in `chunk`). Frames longer than
`REPORT_SIZE` do not occur in the source. -/
def padTo (frame : List Nat) : List Nat :=
  if frame.length = REPORT_SIZE then frame
  else frame ++ List.replicate (REPORT_SIZE - frame.length) 0

/-- Body of the `for` loop of `chunk`: split `data` into `REPORT_SIZE`-byte
slices, zero-padding the last. The fuel equals the number of remaining bytes,
an upper bound on the remaining loop iterations. -/
def chunkGo : Nat → List Nat → List (List Nat)
  | 0, _ => []
  | fuel + 1, data =>
    if data = [] then []
    else padTo (data.take REPORT_SIZE) :: chunkGo fuel (data.drop REPORT_SIZE)

/-- `chunk` from the overlay `wire.ts`: slice into `REPORT_SIZE`-byte frames;
an empty input yields a single zero frame. -/
def chunk (data : List Nat) : List (List Nat) :=
  if data = [] then [List.replicate REPORT_SIZE 0]
  else chunkGo data.length data

/-- `concat` from the overlay `wire.ts`. -/
def concatBytes (parts : List (List Nat)) : List Nat := parts.flatten

/-- `encodeFrame` from the overlay `wire.ts`: 8-byte header
`'##' + type BE16 + len BE32` followed by the payload, chunked into
`REPORT_SIZE`-byte frames. The JS `>>> k & 0xff` extractions are written as
division/modulus on the value reduced mod `2^32`. -/
def encodeFrame (msgType : Nat) (payload : List Nat) : List (List Nat) :=
  let len := payload.length % 2 ^ 32
  let t := msgType % 2 ^ 32
  let header : List Nat :=
    [0x23, 0x23, t / 2 ^ 8 % 2 ^ 8, t % 2 ^ 8,
     len / 2 ^ 24 % 2 ^ 8, len / 2 ^ 16 % 2 ^ 8, len / 2 ^ 8 % 2 ^ 8, len % 2 ^ 8]
  chunk (header ++ payload)

/-- `tryParseHeader` from the overlay `wire.ts`. Format A
(`0x3f 0x23 + type LE16 + len LE32`) is tried first, then format B
(`0x23 0x23 + type BE16 + len BE32`). The JS shift/or byte reassembly is
written arithmetically, which coincides with it for byte-valued buffers. -/
def tryParseHeader (buf : List Nat) : Option WireHeader :=
  if buf.length < 8 then none
  else if buf.getD 0 0 = 0x3f ∧ buf.getD 1 0 = 0x23 then
    some ⟨buf.getD 2 0 + buf.getD 3 0 * 2 ^ 8,
          buf.getD 4 0 + buf.getD 5 0 * 2 ^ 8 + buf.getD 6 0 * 2 ^ 16 + buf.getD 7 0 * 2 ^ 24,
          8, .A⟩
  else if buf.getD 0 0 = 0x23 ∧ buf.getD 1 0 = 0x23 then
    some ⟨buf.getD 2 0 * 2 ^ 8 + buf.getD 3 0,
          buf.getD 4 0 * 2 ^ 24 + buf.getD 5 0 * 2 ^ 16 + buf.getD 6 0 * 2 ^ 8 + buf.getD 7 0,
          8, .B⟩
  else none

/-- `decodeFrames` from the overlay `wire.ts`: concatenate the frames, parse
a header at offset 0, and slice out the declared payload; with no
recognizable header, return `msgType = 0` and the raw bytes. -/
def decodeFrames (frames : List (List Nat)) : WireMsg :=
  let buf := concatBytes frames
  match tryParseHeader buf with
  | none => ⟨0, buf⟩
  | some h => ⟨h.msgType, (buf.drop h.headerLen).take h.payloadLen⟩

theorem padTo_eq_append (l : List Nat) (h : l.length ≤ REPORT_SIZE) :
    padTo l = l ++ List.replicate (REPORT_SIZE - l.length) 0 := by
  unfold padTo
  split
  · simp_all
  · rfl

theorem chunkGo_nil (fuel : Nat) : chunkGo fuel [] = [] := by
  cases fuel <;> simp [chunkGo]

theorem chunkGo_join (fuel : Nat) : ∀ data : List Nat, data.length ≤ fuel →
    ∃ k, (chunkGo fuel data).flatten = data ++ List.replicate k 0 := by
  induction fuel with
  | zero =>
    intro data h
    exact ⟨0, by simp_all [chunkGo, List.length_eq_zero.mp (Nat.le_zero.mp h)]⟩
  | succ n ih =>
    intro data h
    by_cases hd : data = []
    · exact ⟨0, by simp [chunkGo, hd]⟩
    · rcases Nat.le_total data.length REPORT_SIZE with hle | hge
      · refine ⟨REPORT_SIZE - data.length, ?_⟩
        have hdrop : data.drop REPORT_SIZE = [] :=
          List.drop_eq_nil_of_le hle
        have htake : data.take REPORT_SIZE = data := List.take_of_length_le hle
        simp only [chunkGo, hd, if_false, hdrop, chunkGo_nil, List.flatten_cons, List.flatten_nil]
        simp [htake, padTo_eq_append data hle]
      · obtain ⟨k, hk⟩ := ih (data.drop REPORT_SIZE)
          (by simp only [List.length_drop, REPORT_SIZE]; omega)
        refine ⟨k, ?_⟩
        have htake : (data.take REPORT_SIZE).length = REPORT_SIZE :=
          List.length_take_of_le hge
        simp only [chunkGo, hd, if_false, List.flatten_cons]
        rw [padTo_eq_append _ (by omega), htake]
        simp only [Nat.sub_self, List.replicate_zero, List.append_nil, hk]
        rw [← List.append_assoc, List.take_append_drop]

theorem chunk_flatten (data : List Nat) :
    ∃ k, concatBytes (chunk data) = data ++ List.replicate k 0 := by
  unfold concatBytes chunk
  by_cases hd : data = []
  · exact ⟨REPORT_SIZE, by simp [hd]⟩
  · simpa [hd] using chunkGo_join data.length data le_rfl

theorem tryParseHeader_formatB (b2 b3 b4 b5 b6 b7 : Nat) (rest : List Nat) :
    tryParseHeader (0x23 :: 0x23 :: b2 :: b3 :: b4 :: b5 :: b6 :: b7 :: rest)
      = some ⟨b2 * 2 ^ 8 + b3, b4 * 2 ^ 24 + b5 * 2 ^ 16 + b6 * 2 ^ 8 + b7, 8, .B⟩ := by
  unfold tryParseHeader
  simp [List.getD]

/-- Overlay codec round-trip for arbitrary message types below `2^16` and
payloads shorter than `2^32`. -/
theorem encode_decode (t : Nat) (p : List Nat) (ht : t < 2 ^ 16)
    (hl : p.length < 2 ^ 32) :
    decodeFrames (encodeFrame t p) = ⟨t, p⟩ := by
  have hmod : t % 2 ^ 32 = t := Nat.mod_eq_of_lt (by omega)
  have hlmod : p.length % 2 ^ 32 = p.length := Nat.mod_eq_of_lt hl
  simp only [encodeFrame, decodeFrames, hmod, hlmod]
  obtain ⟨k, hk⟩ := chunk_flatten
    ([0x23, 0x23, t / 2 ^ 8 % 2 ^ 8, t % 2 ^ 8,
      p.length / 2 ^ 24 % 2 ^ 8, p.length / 2 ^ 16 % 2 ^ 8,
      p.length / 2 ^ 8 % 2 ^ 8, p.length % 2 ^ 8] ++ p)
  simp only [List.cons_append, List.nil_append] at hk ⊢
  rw [hk, tryParseHeader_formatB]
  have htv : t / 2 ^ 8 % 2 ^ 8 * 2 ^ 8 + t % 2 ^ 8 = t := by omega
  have hlv : p.length / 2 ^ 24 % 2 ^ 8 * 2 ^ 24 + p.length / 2 ^ 16 % 2 ^ 8 * 2 ^ 16
      + p.length / 2 ^ 8 % 2 ^ 8 * 2 ^ 8 + p.length % 2 ^ 8 = p.length := by omega
  simp only [htv, hlv, List.drop_succ_cons, List.drop_zero, WireMsg.mk.injEq, true_and]
  exact List.take_left p (List.replicate k 0)

end OverlayWire

namespace PartWire

/-- `REPORT_SIZE` from the `wire.ts` variant in `src/unnamed/part_010`. -/
def REPORT_SIZE : Nat := 64

/-- `padToReport` from `src/unnamed/part_010`: zero-extend a short frame to
`REPORT_SIZE` bytes. -/
def padToReport (frame : List Nat) : List Nat :=
  if frame.length = REPORT_SIZE then frame
  else frame ++ List.replicate (REPORT_SIZE - frame.length) 0

/-- Continuation-frame loop of `encodeFrame` in `src/unnamed/part_010`:
each frame is `'?++' + seq BE16` followed by the next up-to-59 payload
bytes, zero-padded. The fuel equals `payload.length`, an upper bound on the
iterations of the source's `while (offset < payload.length)` loop. -/
def contFrames (payload : List Nat) : Nat → Nat → Nat → List (List Nat)
  | 0, _, _ => []
  | fuel + 1, offset, seq =>
    if offset < payload.length then
      let contHeader : List Nat :=
        [0x3f, 0x2b, 0x2b, seq % 2 ^ 32 / 2 ^ 8 % 2 ^ 8, seq % 2 ^ 32 % 2 ^ 8]
      let chunkData := (payload.drop offset).take (REPORT_SIZE - 5)
      padToReport (contHeader ++ chunkData)
        :: contFrames payload fuel (offset + chunkData.length) (seq + 1)
    else []

/-- `encodeFrame` from `src/unnamed/part_010`: 9-byte first-frame header
`'?##' + type BE16 + len BE32`, as much payload as fits in the first frame,
then sequenced continuation frames. -/
def encodeFrame (msgType : Nat) (payload : List Nat) : List (List Nat) :=
  let len := payload.length % 2 ^ 32
  let t := msgType % 2 ^ 32
  let firstHeader : List Nat :=
    [0x3f, 0x23, 0x23, t / 2 ^ 8 % 2 ^ 8, t % 2 ^ 8,
     len / 2 ^ 24 % 2 ^ 8, len / 2 ^ 16 % 2 ^ 8, len / 2 ^ 8 % 2 ^ 8, len % 2 ^ 8]
  let firstChunk := payload.take (REPORT_SIZE - 9)
  padToReport (firstHeader ++ firstChunk)
    :: contFrames payload payload.length firstChunk.length 0

/-- `tryParseHeader` from `src/unnamed/part_010`: first the 9-byte `'?##'`
header (type BE16, len BE32), then the legacy 8-byte `0x3f 0x23` header
(type LE16, len LE32). -/
def tryParseHeader (buf : List Nat) : Option WireHeader :=
  if 9 ≤ buf.length ∧ buf.getD 0 0 = 0x3f ∧ buf.getD 1 0 = 0x23 ∧ buf.getD 2 0 = 0x23 then
    some ⟨buf.getD 3 0 * 2 ^ 8 + buf.getD 4 0,
          buf.getD 5 0 * 2 ^ 24 + buf.getD 6 0 * 2 ^ 16 + buf.getD 7 0 * 2 ^ 8 + buf.getD 8 0,
          9, .B⟩
  else if 8 ≤ buf.length ∧ buf.getD 0 0 = 0x3f ∧ buf.getD 1 0 = 0x23 then
    some ⟨buf.getD 2 0 + buf.getD 3 0 * 2 ^ 8,
          buf.getD 4 0 + buf.getD 5 0 * 2 ^ 8 + buf.getD 6 0 * 2 ^ 16 + buf.getD 7 0 * 2 ^ 24,
          8, .A⟩
  else none

/-- `decodeFrames` from `src/unnamed/part_010`: concatenate the frames,
parse a header at offset 0, and slice out the declared payload length;
with no recognizable header, return `msgType = 0` and the raw bytes. Note
that the slice is taken from the raw concatenation, so continuation-frame
headers and first-frame padding are not stripped. -/
def decodeFrames (frames : List (List Nat)) : WireMsg :=
  let buf := frames.flatten
  match tryParseHeader buf with
  | none => ⟨0, buf⟩
  | some h => ⟨h.msgType, (buf.drop h.headerLen).take h.payloadLen⟩

theorem padToReport_eq_append (l : List Nat) (h : l.length ≤ REPORT_SIZE) :
    padToReport l = l ++ List.replicate (REPORT_SIZE - l.length) 0 := by
  unfold padToReport
  split
  · simp_all
  · rfl

theorem tryParseHeader_first (b3 b4 b5 b6 b7 b8 : Nat) (rest : List Nat) :
    tryParseHeader (0x3f :: 0x23 :: 0x23 :: b3 :: b4 :: b5 :: b6 :: b7 :: b8 :: rest)
      = some ⟨b3 * 2 ^ 8 + b4, b5 * 2 ^ 24 + b6 * 2 ^ 16 + b7 * 2 ^ 8 + b8, 9, .B⟩ := by
  unfold tryParseHeader
  simp [List.getD]

/-- The part_010 codec round-trips messages whose payload fits in the first
frame (at most `REPORT_SIZE - 9 = 55` bytes). -/
theorem encode_decode_single (t : Nat) (p : List Nat) (ht : t < 2 ^ 16)
    (hl : p.length ≤ REPORT_SIZE - 9) :
    decodeFrames (encodeFrame t p) = ⟨t, p⟩ := by
  have hl55 : p.length ≤ 55 := by simpa [REPORT_SIZE] using hl
  have hmod : t % 2 ^ 32 = t := Nat.mod_eq_of_lt (by omega)
  have hlmod : p.length % 2 ^ 32 = p.length := Nat.mod_eq_of_lt (by omega)
  have htake : p.take (REPORT_SIZE - 9) = p := List.take_of_length_le (by omega)
  simp only [encodeFrame, decodeFrames, hmod, hlmod, htake]
  have hcont : ∀ fuel, contFrames p fuel p.length 0 = [] := by
    intro fuel
    cases fuel <;> simp [contFrames]
  rw [hcont]
  rw [padToReport_eq_append _ (by simp [REPORT_SIZE]; omega)]
  simp only [List.flatten_cons, List.flatten_nil, List.cons_append, List.nil_append,
    List.append_nil, List.append_assoc]
  rw [tryParseHeader_first]
  have htv : t / 2 ^ 8 % 2 ^ 8 * 2 ^ 8 + t % 2 ^ 8 = t := by omega
  have hlv : p.length / 2 ^ 24 % 2 ^ 8 * 2 ^ 24 + p.length / 2 ^ 16 % 2 ^ 8 * 2 ^ 16
      + p.length / 2 ^ 8 % 2 ^ 8 * 2 ^ 8 + p.length % 2 ^ 8 = p.length := by omega
  simp only [htv, hlv, List.drop_succ_cons, List.drop_zero, WireMsg.mk.injEq, true_and]
  exact List.take_left p _

/-- The part_010 codec preserves the message type for every payload:
whatever the payload length, the concatenated frames still start with the
9-byte first-frame header. -/
theorem decode_msgType (t : Nat) (p : List Nat) (ht : t < 2 ^ 16) :
    (decodeFrames (encodeFrame t p)).msgType = t := by
  have hmod : t % 2 ^ 32 = t := Nat.mod_eq_of_lt (by omega)
  simp only [encodeFrame, decodeFrames, hmod]
  rw [padToReport_eq_append _ (by
    simp only [List.length_append, List.length_cons, List.length_nil, List.length_take,
      REPORT_SIZE]
    omega)]
  simp only [List.flatten_cons, List.cons_append, List.nil_append, List.append_assoc]
  rw [tryParseHeader_first]
  simp only [WireMsg.mk.injEq]
  omega

end PartWire

set_option maxRecDepth 8192

/-- Claim C1 (counterexample): for the part_010 codec the round-trip fails
as soon as the payload needs a continuation frame. With `typeId = 1234` and
a payload of 56 zero bytes, the decoded payload picks up the first byte of
the continuation-frame header (`0x3f`) in place of the 56th payload byte. -/
theorem frame_roundtrip_counterexample :
    PartWire.decodeFrames (PartWire.encodeFrame 1234 (List.replicate 56 0))
      = ⟨1234, List.replicate 55 0 ++ [0x3f]⟩
    ∧ PartWire.decodeFrames (PartWire.encodeFrame 1234 (List.replicate 56 0))
      ≠ ⟨1234, List.replicate 56 0⟩ := by
  constructor <;> decide

/-- Claim C1 (amended): the frame-codec round-trip
`decodeFrames(encodeFrame(typeId, payload))` returns the original `typeId`
and a byte-identical payload for every `typeId` in `[0, 65535]` and every
payload length in `{0, 1, 55, 56, 120, 1000}` for the overlay `wire.ts`
codec; for the superseded part_010 codec it holds exactly for the payloads
that fit in the single first frame (lengths 0, 1 and 55 of the list). -/
theorem frame_roundtrip_amended (t : Nat) (p : List Nat) (ht : t ≤ 65535)
    (hl : p.length = 0 ∨ p.length = 1 ∨ p.length = 55 ∨ p.length = 56
      ∨ p.length = 120 ∨ p.length = 1000) :
    OverlayWire.decodeFrames (OverlayWire.encodeFrame t p) = ⟨t, p⟩
    ∧ (p.length ≤ 55 →
      PartWire.decodeFrames (PartWire.encodeFrame t p) = ⟨t, p⟩) := by
  constructor
  · exact OverlayWire.encode_decode t p (by omega) (by omega)
  · intro h55
    exact PartWire.encode_decode_single t p (by omega)
      (by simp only [PartWire.REPORT_SIZE]; omega)

/-- Witness for C1 (amended): the overlay codec round-trips a 56-byte
payload and the part_010 codec round-trips a 55-byte payload, via
`frame_roundtrip_amended`. -/
theorem frame_roundtrip_amended_witness :
    OverlayWire.decodeFrames (OverlayWire.encodeFrame 1234 (List.replicate 56 7))
      = ⟨1234, List.replicate 56 7⟩
    ∧ PartWire.decodeFrames (PartWire.encodeFrame 1234 (List.replicate 55 7))
      = ⟨1234, List.replicate 55 7⟩ :=
  ⟨(frame_roundtrip_amended 1234 (List.replicate 56 7) (by decide) (by decide)).1,
   (frame_roundtrip_amended 1234 (List.replicate 55 7) (by decide)
      (by decide)).2 (by decide)⟩

/-- Claim C8: on any byte sequence where no recognizable first-frame header
magic is found, `decodeFrames` returns `typeId = 0` together with the raw
concatenated input bytes as the payload (both the overlay codec and the
part_010 codec); and for every protocol message encoded with a non-zero
`typeId` up to 65535, decoding never yields `typeId = 0`. -/
theorem decode_unknown_header_safety (frames : List (List Nat)) (t : Nat)
    (p : List Nat) (ht1 : 1 ≤ t) (ht2 : t ≤ 65535) (hp : p.length < 2 ^ 32) :
    (OverlayWire.tryParseHeader frames.flatten = none →
      OverlayWire.decodeFrames frames = ⟨0, frames.flatten⟩)
    ∧ (PartWire.tryParseHeader frames.flatten = none →
      PartWire.decodeFrames frames = ⟨0, frames.flatten⟩)
    ∧ (OverlayWire.decodeFrames (OverlayWire.encodeFrame t p)).msgType = t
    ∧ (OverlayWire.decodeFrames (OverlayWire.encodeFrame t p)).msgType ≠ 0
    ∧ (PartWire.decodeFrames (PartWire.encodeFrame t p)).msgType = t
    ∧ (PartWire.decodeFrames (PartWire.encodeFrame t p)).msgType ≠ 0 := by
  have hov : (OverlayWire.decodeFrames (OverlayWire.encodeFrame t p)).msgType = t := by
    rw [OverlayWire.encode_decode t p (by omega) hp]
  have hpt : (PartWire.decodeFrames (PartWire.encodeFrame t p)).msgType = t :=
    PartWire.decode_msgType t p (by omega)
  refine ⟨?_, ?_, hov, by omega, hpt, by omega⟩
  · intro h
    simp only [OverlayWire.decodeFrames, OverlayWire.concatBytes, h]
  · intro h
    simp only [PartWire.decodeFrames, h]

/-- Witness for C8: decoding the unparseable bytes `[1, 2, 3]` yields
`typeId = 0` with the raw bytes, and an encoded message with `typeId = 17`
decodes with `typeId = 17 ≠ 0`, via `decode_unknown_header_safety`. -/
theorem decode_unknown_header_safety_witness :
    OverlayWire.decodeFrames [[1, 2, 3]] = ⟨0, [1, 2, 3]⟩
    ∧ PartWire.decodeFrames [[1, 2, 3]] = ⟨0, [1, 2, 3]⟩
    ∧ (PartWire.decodeFrames (PartWire.encodeFrame 17 [5])).msgType = 17 :=
  ⟨(decode_unknown_header_safety [[1, 2, 3]] 17 [5] (by decide) (by decide)
      (by decide)).1 (by decide),
   (decode_unknown_header_safety [[1, 2, 3]] 17 [5] (by decide) (by decide)
      (by decide)).2.1 (by decide),
   (decode_unknown_header_safety [[1, 2, 3]] 17 [5] (by decide) (by decide)
      (by decide)).2.2.2.2.1⟩

/-- Backoff kind (`'linear' | 'exponential'`) of the connect options. -/
inductive BackoffKind
  | linear
  | exponential
deriving DecidableEq, Repr

/-- The retry-relevant `ConnectOptions` of `connectAndGetPublicKey`. -/
structure RetryOpts where
  maxAttempts : Nat
  attemptDelayMs : Nat
  backoff : BackoffKind
  maxDelayMs : Nat
deriving DecidableEq, Repr

instance exceptDecEq {a b : Type} [DecidableEq a] [DecidableEq b] :
    DecidableEq (Except a b) := fun x y =>
  match x, y with
  | .ok u, .ok v =>
    if h : u = v then isTrue (by rw [h]) else isFalse (by simp [h])
  | .ok _, .error _ => isFalse (by simp)
  | .error _, .ok _ => isFalse (by simp)
  | .error u, .error v =>
    if h : u = v then isTrue (by rw [h]) else isFalse (by simp [h])

/-- Observable outcome of the retry controller: the surfaced result, the
inter-attempt sleeps in order, and the number of attempts run. -/
structure RetryTrace where
  result : Except String String
  delays : List Nat
  attemptsUsed : Nat
deriving DecidableEq, Repr

/-- The `for (attempt = 1; attempt <= maxAttempts; attempt++)` retry loop of
`connectAndGetPublicKey` (mobile and overlay `TrezorBridge.ts`). `f attempt`
is the outcome of the attempt body: `.ok key` for a returned public key,
`.error msg` for a thrown message. On a thrown message the controller
classifies it; a non-retryable classification breaks out surfacing the
message, otherwise if attempts remain it sleeps
`min(attemptDelayMs * 2^(attempt-1), maxDelayMs)` (exponential) or
`min(attemptDelayMs * attempt, maxDelayMs)` (linear) and retries. The fuel
is the number of remaining loop iterations, `maxAttempts` initially; at fuel
0 the loop has exhausted its attempts and throws the last error (or the
default message when no attempt ran). -/
def retryAux (f : Nat → Except String String) (o : RetryOpts) :
    Nat → Nat → Option String → RetryTrace
  | 0, _, lastErr => ⟨.error (lastErr.getD "Failed to connect to Trezor"), [], 0⟩
  | fuel + 1, attempt, _ =>
    match f attempt with
    | .ok key => ⟨.ok key, [], 1⟩
    | .error msg =>
      if (classifyTrezorError msg).retryable = false then ⟨.error msg, [], 1⟩
      else if attempt < o.maxAttempts then
        let rest := retryAux f o fuel (attempt + 1) (some msg)
        ⟨rest.result,
         (match o.backoff with
          | .exponential => min (o.attemptDelayMs * 2 ^ (attempt - 1)) o.maxDelayMs
          | .linear => min (o.attemptDelayMs * attempt) o.maxDelayMs) :: rest.delays,
         rest.attemptsUsed + 1⟩
      else ⟨.error msg, [], 1⟩

/-- Entry point of the retry controller: attempts start at 1 with no last
error recorded. -/
def connectRetry (f : Nat → Except String String) (o : RetryOpts) : RetryTrace :=
  retryAux f o o.maxAttempts 1 none

theorem retryAux_all_retryable_error (f : Nat → Except String String)
    (o : RetryOpts) : ∀ fuel k l, k + fuel = o.maxAttempts + 1 → 1 ≤ fuel →
    (∀ j, k ≤ j → j ≤ o.maxAttempts →
      ∃ mj, f j = .error mj ∧ (classifyTrezorError mj).retryable = true) →
    ∃ mn, f o.maxAttempts = .error mn
      ∧ (retryAux f o fuel k l).result = .error mn := by
  intro fuel
  induction fuel with
  | zero => intro k l _ h1; omega
  | succ n ih =>
    intro k l hsum _ hyp
    obtain ⟨m, hfk, hr⟩ := hyp k le_rfl (by omega)
    by_cases hlt : k < o.maxAttempts
    · have hn : 1 ≤ n := by omega
      obtain ⟨mn, h1, h2⟩ := ih (k + 1) (some m) (by omega) hn
        (fun j hj1 hj2 => hyp j (by omega) hj2)
      refine ⟨mn, h1, ?_⟩
      simp only [retryAux, hfk, hr, Bool.true_eq_false, if_false, hlt, if_true, h2]
    · have hk : k = o.maxAttempts := by omega
      refine ⟨m, hk ▸ hfk, ?_⟩
      simp only [retryAux, hfk, hr, Bool.true_eq_false, if_false, hlt]

/-- Claim C5: for every attempt `k` that fails, the retry controller stops
immediately and surfaces the error when its classification is not
retryable; when it is retryable and attempts remain it sleeps exactly
`min(attemptDelayMs * k, maxDelayMs)` under linear backoff or
`min(attemptDelayMs * 2^(k-1), maxDelayMs)` under exponential backoff
before running attempt `k + 1`; when the failing attempt is the last one it
stops; and when every attempt fails retryably the controller surfaces the
error of attempt `maxAttempts`, the last observed error. -/
theorem retry_controller_policy (f : Nat → Except String String) (o : RetryOpts) :
    (∀ fuel k l m, f k = .error m →
      (classifyTrezorError m).retryable = false →
      retryAux f o (fuel + 1) k l = ⟨.error m, [], 1⟩)
    ∧ (∀ fuel k l m, f k = .error m →
      (classifyTrezorError m).retryable = true → k < o.maxAttempts →
      retryAux f o (fuel + 1) k l =
        ⟨(retryAux f o fuel (k + 1) (some m)).result,
         (match o.backoff with
          | .exponential => min (o.attemptDelayMs * 2 ^ (k - 1)) o.maxDelayMs
          | .linear => min (o.attemptDelayMs * k) o.maxDelayMs)
           :: (retryAux f o fuel (k + 1) (some m)).delays,
         (retryAux f o fuel (k + 1) (some m)).attemptsUsed + 1⟩)
    ∧ (∀ fuel k l m, f k = .error m →
      (classifyTrezorError m).retryable = true → ¬k < o.maxAttempts →
      retryAux f o (fuel + 1) k l = ⟨.error m, [], 1⟩)
    ∧ (1 ≤ o.maxAttempts →
      (∀ j, 1 ≤ j → j ≤ o.maxAttempts →
        ∃ mj, f j = .error mj ∧ (classifyTrezorError mj).retryable = true) →
      ∃ mn, f o.maxAttempts = .error mn
        ∧ (connectRetry f o).result = .error mn) := by
  refine ⟨?_, ?_, ?_, ?_⟩
  · intro fuel k l m hf hc
    simp only [retryAux, hf, hc, if_true]
  · intro fuel k l m hf hc hk
    simp only [retryAux, hf, hc, Bool.true_eq_false, if_false, hk, if_true]
  · intro fuel k l m hf hc hk
    simp only [retryAux, hf, hc, Bool.true_eq_false, if_false, hk]
  · intro h1 hyp
    exact retryAux_all_retryable_error f o o.maxAttempts 1 none (by omega) h1 hyp

/-- Attempt outcomes of the spec's retry example: two `DEVICE_BUSY`
failures followed by success. -/
def busyThenOkAttempts : Nat → Except String String :=
  fun k => if k ≤ 2 then .error "Device is busy" else .ok "PK"

/-- The spec's retry example options: `maxAttempts = 3`, linear backoff,
`attemptDelayMs = 100` (with the overlay default `maxDelayMs = 5000`). -/
def specRetryOpts : RetryOpts := ⟨3, 100, .linear, 5000⟩

/-- Witness for C5: with two retryable busy failures and linear backoff at
100 ms, attempt 1 sleeps exactly `min(100 * 1, 5000) = 100` ms before
attempt 2, by `retry_controller_policy`. -/
theorem retry_controller_policy_witness :
    retryAux busyThenOkAttempts specRetryOpts 3 1 none =
      ⟨(retryAux busyThenOkAttempts specRetryOpts 2 2 (some "Device is busy")).result,
       min (100 * 1) 5000
         :: (retryAux busyThenOkAttempts specRetryOpts 2 2 (some "Device is busy")).delays,
       (retryAux busyThenOkAttempts specRetryOpts 2 2 (some "Device is busy")).attemptsUsed + 1⟩ :=
  (retry_controller_policy busyThenOkAttempts specRetryOpts).2.1 2 1 none
    "Device is busy" (by decide) (by decide) (by decide)

/-- Message-type constants of `TrezorBridge.MSG` in the mobile bridge. -/
def MSG_FEATURES : Nat := 17

/-- `TrezorBridge.MSG.FAILURE`. -/
def MSG_FAILURE : Nat := 3

/-- `TrezorBridge.MSG.BUTTON_REQUEST`. -/
def MSG_BUTTON_REQUEST : Nat := 26

/-- `TrezorBridge.MSG.BUTTON_ACK`. -/
def MSG_BUTTON_ACK : Nat := 27

/-- `TrezorBridge.MSG.PASSPHRASE_REQUEST`. -/
def MSG_PASSPHRASE_REQUEST : Nat := 41

/-- `TrezorBridge.MSG.PASSPHRASE_ACK`. -/
def MSG_PASSPHRASE_ACK : Nat := 42

/-- Message thrown when a `PassphraseRequest` arrives with no configured
passphrase provider. -/
def passphraseNoUiMsg : String := "Passphrase required but no passphrase UI is wired"

/-- Message thrown when the passphrase provider returns `null`. -/
def passphraseCancelledMsg : String := "Passphrase entry cancelled"

/-- Message thrown on a device `Failure` response in the request loop. -/
def deviceFailureMsg : String := "Device Failure; action was rejected or passphrase incorrect"

/-- Message thrown after the mobile request loop exhausts its `guard` cap
without a usable key. -/
def emptyKeyMsg : String := "Empty public key payload"

/-- Message thrown after the part_011 request loop exhausts its 10-iteration
`guard` cap. -/
def capMsg11 : String := "Failed to get public key after 10 attempts"

/-- One device response as seen by the mobile request loop: the message type
parsed by `sendAndReceive` plus the key bytes that `decodeSolanaPublicKey`
extracts from the response payload (empty when absent). -/
structure MobileResp where
  respType : Nat
  pk : List Nat
deriving DecidableEq, Repr

/-- Environment of one mobile request loop: the device response at each
receive, whether a `PassphraseProvider` is configured, and the provider's
successive answers (`none` models the JS `null`, cancellation). -/
structure MobileCtx where
  resp : Nat → MobileResp
  hasProvider : Bool
  providerAnswers : Nat → Option String

/-- Host-to-device message kinds sent by the request loops. -/
inductive SentMsg
  | solanaGetPublicKey
  | passphraseAck (passphrase : String)
  | buttonAck
deriving DecidableEq, Repr

/-- Observable outcome of a request loop: the result (`.ok` key bytes or the
thrown message), the host-to-device messages sent, and the number of
responses consumed. -/
structure LoopOut where
  result : Except String (List Nat)
  sent : List SentMsg
  receives : Nat
deriving DecidableEq, Repr

/-- The `while (guard++ < 6 && !keyB58)` public-key request loop of the
mobile `TrezorBridge.connectAndGetPublicKey` (lines 101-142). Each iteration
sends `SolanaGetPublicKey`, receives one response and dispatches on its
type: `0` (unparsed) loops; `PASSPHRASE_REQUEST` fails without a provider,
throws on a `null` answer, otherwise sends a `PassphraseAck` carrying the
entered value and loops; `BUTTON_REQUEST` sends `ButtonAck` and loops;
`FAILURE` throws; an empty decoded key loops; a non-empty key succeeds.
The fuel is the remaining `guard` budget, 6 initially; at fuel 0 the
post-loop `if (!keyB58) throw` fires. `i` counts consumed responses and `k`
counts provider invocations. -/
def mobileLoopAux (ctx : MobileCtx) : Nat → Nat → Nat → LoopOut
  | 0, _, _ => ⟨.error emptyKeyMsg, [], 0⟩
  | fuel + 1, i, k =>
    let r := ctx.resp i
    if r.respType = 0 then
      let rest := mobileLoopAux ctx fuel (i + 1) k
      ⟨rest.result, .solanaGetPublicKey :: rest.sent, rest.receives + 1⟩
    else if r.respType = MSG_PASSPHRASE_REQUEST then
      if ctx.hasProvider then
        match ctx.providerAnswers k with
        | none => ⟨.error passphraseCancelledMsg, [.solanaGetPublicKey], 1⟩
        | some pw =>
          let rest := mobileLoopAux ctx fuel (i + 1) (k + 1)
          ⟨rest.result, .solanaGetPublicKey :: .passphraseAck pw :: rest.sent,
           rest.receives + 1⟩
      else ⟨.error passphraseNoUiMsg, [.solanaGetPublicKey], 1⟩
    else if r.respType = MSG_BUTTON_REQUEST then
      let rest := mobileLoopAux ctx fuel (i + 1) k
      ⟨rest.result, .solanaGetPublicKey :: .buttonAck :: rest.sent, rest.receives + 1⟩
    else if r.respType = MSG_FAILURE then
      ⟨.error deviceFailureMsg, [.solanaGetPublicKey], 1⟩
    else if r.pk = [] then
      let rest := mobileLoopAux ctx fuel (i + 1) k
      ⟨rest.result, .solanaGetPublicKey :: rest.sent, rest.receives + 1⟩
    else ⟨.ok r.pk, [.solanaGetPublicKey], 1⟩

/-- The mobile request loop entered with its full `guard` budget of 6. -/
def runMobileLoop (ctx : MobileCtx) : LoopOut := mobileLoopAux ctx 6 0 0

/-- One device response as seen by the part_011 request loop:
`receiveMessage` returns `{ type, message }`; `rtype` is the type string and
`pk` the `message.public_key` bytes (empty when absent). -/
structure Resp11 where
  rtype : String
  pk : List Nat
deriving DecidableEq, Repr

/-- Environment of one part_011 request loop, as for `MobileCtx`. -/
structure Ctx11 where
  resp : Nat → Resp11
  hasProvider : Bool
  providerAnswers : Nat → Option String

/-- A response that yields a usable key in the part_011 request loop: a
`SolanaPublicKey` response (or the untyped fallback) carrying non-empty key
bytes. -/
def usable11 (r : Resp11) : Bool :=
  (r.rtype == "SolanaPublicKey" || r.rtype == "") && !(r.pk == [])

/-- The `while (guard++ < 10)` public-key request loop of
`connectAndGetPublicKey` in `src/unnamed/part_011` (lines 196-262). Each
iteration sends `SolanaGetPublicKey` and receives one response:
`PassphraseRequest` fails without a provider, throws on a `null` answer,
otherwise sends `PassphraseAck` and loops; `ButtonRequest` sends `ButtonAck`
and loops; `Failure` throws; a `SolanaPublicKey` (or untyped) response with
non-empty key bytes succeeds; anything else loops. The fuel is the
remaining `guard` budget, 10 initially; at fuel 0 the post-loop
`throw new Error('Failed to get public key after 10 attempts')` fires. -/
def loop11Aux (ctx : Ctx11) : Nat → Nat → Nat → LoopOut
  | 0, _, _ => ⟨.error capMsg11, [], 0⟩
  | fuel + 1, i, k =>
    let r := ctx.resp i
    if r.rtype = "PassphraseRequest" then
      if ctx.hasProvider then
        match ctx.providerAnswers k with
        | none => ⟨.error passphraseCancelledMsg, [.solanaGetPublicKey], 1⟩
        | some pw =>
          let rest := loop11Aux ctx fuel (i + 1) (k + 1)
          ⟨rest.result, .solanaGetPublicKey :: .passphraseAck pw :: rest.sent,
           rest.receives + 1⟩
      else ⟨.error passphraseNoUiMsg, [.solanaGetPublicKey], 1⟩
    else if r.rtype = "ButtonRequest" then
      let rest := loop11Aux ctx fuel (i + 1) k
      ⟨rest.result, .solanaGetPublicKey :: .buttonAck :: rest.sent, rest.receives + 1⟩
    else if r.rtype = "Failure" then
      ⟨.error deviceFailureMsg, [.solanaGetPublicKey], 1⟩
    else if r.rtype = "SolanaPublicKey" ∧ r.pk ≠ [] then
      ⟨.ok r.pk, [.solanaGetPublicKey], 1⟩
    else if r.rtype = "" ∧ r.pk ≠ [] then
      ⟨.ok r.pk, [.solanaGetPublicKey], 1⟩
    else
      let rest := loop11Aux ctx fuel (i + 1) k
      ⟨rest.result, .solanaGetPublicKey :: rest.sent, rest.receives + 1⟩

/-- The part_011 request loop entered with its full `guard` budget of 10. -/
def runLoop11 (ctx : Ctx11) : LoopOut := loop11Aux ctx 10 0 0

theorem loop11Aux_no_usable (ctx : Ctx11)
    (h1 : ∀ i, usable11 (ctx.resp i) = false)
    (h2 : ctx.hasProvider = true → ∀ k, ctx.providerAnswers k ≠ none) :
    ∀ fuel i k,
    (∃ e, (loop11Aux ctx fuel i k).result = .error e
      ∧ (classifyTrezorError e).code = .UNKNOWN)
    ∧ (loop11Aux ctx fuel i k).receives ≤ fuel := by
  intro fuel
  induction fuel with
  | zero => exact fun i k => ⟨⟨capMsg11, rfl, by decide⟩, le_rfl⟩
  | succ n ih =>
    intro i k
    have hA : ¬((ctx.resp i).rtype = "SolanaPublicKey" ∧ (ctx.resp i).pk ≠ []) := by
      intro ⟨ha, hb⟩
      have hu := h1 i
      simp [usable11, ha, hb] at hu
    have hB : ¬((ctx.resp i).rtype = "" ∧ (ctx.resp i).pk ≠ []) := by
      intro ⟨ha, hb⟩
      have hu := h1 i
      simp [usable11, ha, hb] at hu
    by_cases hpp : (ctx.resp i).rtype = "PassphraseRequest"
    · cases hpv : ctx.hasProvider with
      | false =>
        refine ⟨⟨passphraseNoUiMsg, ?_, by decide⟩, ?_⟩ <;>
          simp [loop11Aux, hpp, hpv]
      | true =>
        cases hans : ctx.providerAnswers k with
        | none => exact absurd hans (h2 hpv k)
        | some pw =>
          obtain ⟨⟨e, he, hc⟩, hr⟩ := ih (i + 1) (k + 1)
          refine ⟨⟨e, ?_, hc⟩, ?_⟩ <;> simp [loop11Aux, hpp, hpv, hans, he] <;> omega
    · by_cases hbr : (ctx.resp i).rtype = "ButtonRequest"
      · obtain ⟨⟨e, he, hc⟩, hr⟩ := ih (i + 1) k
        refine ⟨⟨e, ?_, hc⟩, ?_⟩ <;> simp [loop11Aux, hpp, hbr, he] <;> omega
      · by_cases hfl : (ctx.resp i).rtype = "Failure"
        · refine ⟨⟨deviceFailureMsg, ?_, by decide⟩, ?_⟩ <;>
            simp [loop11Aux, hpp, hbr, hfl]
        · obtain ⟨⟨e, he, hc⟩, hr⟩ := ih (i + 1) k
          refine ⟨⟨e, ?_, hc⟩, ?_⟩ <;>
            simp [loop11Aux, hpp, hbr, hfl, hA, hB, he] <;> omega

/-- Claim C3: the part_011 public-key request loop is bounded by its hard
cap of 10 iterations. For every device behaviour that never yields a usable
(non-empty) key and never has the passphrase provider cancel, the loop
consumes at most 10 responses and ends in a thrown error whose
classification is `UNKNOWN` (the cap message, a device `Failure`, or a
missing passphrase provider) instead of looping forever. -/
theorem bounded_request_loop (ctx : Ctx11)
    (h1 : ∀ i, usable11 (ctx.resp i) = false)
    (h2 : ctx.hasProvider = true → ∀ k, ctx.providerAnswers k ≠ none) :
    (∃ e, (runLoop11 ctx).result = .error e
      ∧ (classifyTrezorError e).code = .UNKNOWN)
    ∧ (runLoop11 ctx).receives ≤ 10 :=
  loop11Aux_no_usable ctx h1 h2 10 0 0

/-- A simulated device that always answers `Unknown` with no key bytes, and
no passphrase provider. -/
def unknownOnlyCtx : Ctx11 := ⟨fun _ => ⟨"Unknown", []⟩, false, fun _ => some ""⟩

/-- Witness for C3: the always-`Unknown` device makes the request loop stop
within its cap with an `UNKNOWN`-classified failure, by
`bounded_request_loop`. -/
theorem bounded_request_loop_witness :
    (∃ e, (runLoop11 unknownOnlyCtx).result = .error e
      ∧ (classifyTrezorError e).code = .UNKNOWN)
    ∧ (runLoop11 unknownOnlyCtx).receives ≤ 10 :=
  bounded_request_loop unknownOnlyCtx (fun _ => rfl) (fun h => Bool.noConfusion h)

/-- Attempt outcomes where attempt 1 throws the device-`Failure` message and
attempt 2 succeeds. -/
def failThenOkAttempts : Nat → Except String String :=
  fun k => if k = 1 then .error deviceFailureMsg else .ok "PK"

/-- The mobile bridge's default connect options: `maxAttempts = 6`,
`attemptDelayMs = 1000`, exponential backoff, `maxDelayMs = 8000`. -/
def mobileRetryOpts : RetryOpts := ⟨6, 1000, .exponential, 8000⟩

/-- Claim C2 (counterexample): the device-`Failure` message classifies as
`UNKNOWN`/retryable, so after an attempt fails with it the retry controller
runs another attempt (sleeping 1000 ms) instead of surfacing the failure:
the claim's "never retried by the retry controller across attempts" is
false on this run. -/
theorem failure_retried_counterexample :
    classifyTrezorError deviceFailureMsg = ⟨.UNKNOWN, true⟩
    ∧ connectRetry failThenOkAttempts mobileRetryOpts = ⟨.ok "PK", [1000], 2⟩ := by
  constructor <;> decide

/-- Claim C2 (amended): a device `Failure` response makes the request loop
throw immediately — it is never retried within the attempt — but the thrown
message classifies as `UNKNOWN`/retryable, so the retry controller retries
the attempt while attempts remain and surfaces the failure only after
exhausting `maxAttempts`. -/
theorem failure_fatal_in_attempt_but_retried :
    (∀ (ctx : MobileCtx) (fuel i k : Nat),
      (ctx.resp i).respType = MSG_FAILURE →
      mobileLoopAux ctx (fuel + 1) i k
        = ⟨.error deviceFailureMsg, [.solanaGetPublicKey], 1⟩)
    ∧ classifyTrezorError deviceFailureMsg = ⟨.UNKNOWN, true⟩
    ∧ (∀ (f : Nat → Except String String) (o : RetryOpts) (fuel ka : Nat)
      (l : Option String), f ka = .error deviceFailureMsg → ka < o.maxAttempts →
      (retryAux f o (fuel + 1) ka l).result
        = (retryAux f o fuel (ka + 1) (some deviceFailureMsg)).result
      ∧ (retryAux f o (fuel + 1) ka l).attemptsUsed
        = (retryAux f o fuel (ka + 1) (some deviceFailureMsg)).attemptsUsed + 1)
    ∧ (∀ (f : Nat → Except String String) (o : RetryOpts), 1 ≤ o.maxAttempts →
      (∀ j, 1 ≤ j → j ≤ o.maxAttempts → f j = .error deviceFailureMsg) →
      (connectRetry f o).result = .error deviceFailureMsg) := by
  refine ⟨?_, by decide, ?_, ?_⟩
  · intro ctx fuel i k hM
    have h0 : ¬(ctx.resp i).respType = 0 := by rw [hM]; decide
    have h41 : ¬(ctx.resp i).respType = MSG_PASSPHRASE_REQUEST := by rw [hM]; decide
    have h26 : ¬(ctx.resp i).respType = MSG_BUTTON_REQUEST := by rw [hM]; decide
    simp only [mobileLoopAux]
    rw [if_neg h0, if_neg h41, if_neg h26, if_pos hM]
  · intro f o fuel ka l hf hlt
    simp only [retryAux, hf]
    rw [if_neg (by decide : ¬(classifyTrezorError deviceFailureMsg).retryable = false),
      if_pos hlt]
    exact ⟨rfl, rfl⟩
  · intro f o hmax hyp
    obtain ⟨mn, hn1, hn2⟩ := retryAux_all_retryable_error f o o.maxAttempts 1 none
      (by omega) hmax
      (fun j hj1 hj2 => ⟨deviceFailureMsg, hyp j hj1 hj2, by decide⟩)
    rw [hyp o.maxAttempts (by omega) le_rfl] at hn1
    injection hn1 with hmn
    rw [← hmn] at hn2
    exact hn2

/-- A simulated device whose first response in the request loop is a
`Failure` message. -/
def failureRespCtx : MobileCtx := ⟨fun _ => ⟨3, []⟩, false, fun _ => none⟩

/-- Witness for C2 (amended): a `Failure` first response ends the mobile
request loop immediately, and the retry controller then moves on to attempt
2, by `failure_fatal_in_attempt_but_retried`. -/
theorem failure_fatal_in_attempt_but_retried_witness :
    mobileLoopAux failureRespCtx 6 0 0
      = ⟨.error deviceFailureMsg, [.solanaGetPublicKey], 1⟩
    ∧ (retryAux failThenOkAttempts mobileRetryOpts 6 1 none).result
      = (retryAux failThenOkAttempts mobileRetryOpts 5 2 (some deviceFailureMsg)).result :=
  ⟨failure_fatal_in_attempt_but_retried.1 failureRespCtx 5 0 0 rfl,
   (failure_fatal_in_attempt_but_retried.2.2.1 failThenOkAttempts mobileRetryOpts
      5 1 none (by decide) (by decide)).1⟩

/-- Claim C7: on a `PassphraseRequest` in the mobile request loop, a missing
provider fails the attempt fatally; a configured provider is consulted and
its entered value is sent back in a `PassphraseAck` after which the loop
continues; and a `null` provider result throws the cancellation message,
which classifies `CANCELLED`/not-retryable, so the retry controller stops
immediately and surfaces it. -/
theorem passphrase_request_handling :
    (∀ (ctx : MobileCtx) (fuel i k : Nat),
      (ctx.resp i).respType = MSG_PASSPHRASE_REQUEST →
      (ctx.hasProvider = false →
        mobileLoopAux ctx (fuel + 1) i k
          = ⟨.error passphraseNoUiMsg, [.solanaGetPublicKey], 1⟩)
      ∧ (∀ pw, ctx.hasProvider = true → ctx.providerAnswers k = some pw →
        mobileLoopAux ctx (fuel + 1) i k =
          ⟨(mobileLoopAux ctx fuel (i + 1) (k + 1)).result,
           .solanaGetPublicKey :: .passphraseAck pw
             :: (mobileLoopAux ctx fuel (i + 1) (k + 1)).sent,
           (mobileLoopAux ctx fuel (i + 1) (k + 1)).receives + 1⟩)
      ∧ (ctx.hasProvider = true → ctx.providerAnswers k = none →
        mobileLoopAux ctx (fuel + 1) i k
          = ⟨.error passphraseCancelledMsg, [.solanaGetPublicKey], 1⟩))
    ∧ classifyTrezorError passphraseCancelledMsg = ⟨.CANCELLED, false⟩
    ∧ (∀ (f : Nat → Except String String) (o : RetryOpts) (fuel ka : Nat)
      (l : Option String), f ka = .error passphraseCancelledMsg →
      retryAux f o (fuel + 1) ka l = ⟨.error passphraseCancelledMsg, [], 1⟩) := by
  refine ⟨?_, by decide, ?_⟩
  · intro ctx fuel i k hM
    have h0 : ¬(ctx.resp i).respType = 0 := by rw [hM]; decide
    refine ⟨?_, ?_, ?_⟩
    · intro hnp
      simp only [mobileLoopAux]
      rw [if_neg h0, if_pos hM]
      simp [hnp]
    · intro pw hpv hans
      simp only [mobileLoopAux]
      rw [if_neg h0, if_pos hM]
      simp [hpv, hans]
    · intro hpv hans
      simp only [mobileLoopAux]
      rw [if_neg h0, if_pos hM]
      simp [hpv, hans]
  · intro f o fuel ka l hf
    simp only [retryAux, hf]
    rw [if_pos (by decide : (classifyTrezorError passphraseCancelledMsg).retryable = false)]

/-- A simulated device that issues a `PassphraseRequest` to a configured
provider whose user cancels entry. -/
def passphraseCancelCtx : MobileCtx := ⟨fun _ => ⟨41, []⟩, true, fun _ => none⟩

/-- Witness for C7: a cancelled passphrase entry fails the request loop with
the cancellation message, and the retry controller stops immediately on that
message, by `passphrase_request_handling`. -/
theorem passphrase_request_handling_witness :
    mobileLoopAux passphraseCancelCtx 6 0 0
      = ⟨.error passphraseCancelledMsg, [.solanaGetPublicKey], 1⟩
    ∧ retryAux (fun _ => .error passphraseCancelledMsg) mobileRetryOpts 6 1 none
      = ⟨.error passphraseCancelledMsg, [], 1⟩ :=
  ⟨(passphrase_request_handling.1 passphraseCancelCtx 5 0 0 rfl).2.2 rfl rfl,
   passphrase_request_handling.2.2 (fun _ => .error passphraseCancelledMsg)
     mobileRetryOpts 5 1 none rfl⟩

/-- Resource events on the `DeviceHandle` during one connect attempt:
`TrezorUSB.open` and `TrezorUSB.close` calls. -/
inductive AttemptEvent
  | openHandle
  | closeHandle
deriving DecidableEq, Repr

/-- Whether the handle is open after the recorded events: an open call
opens it, a close call closes it. -/
def handleOpenAtEnd (tr : List AttemptEvent) : Bool :=
  tr.foldl (fun _ e => match e with | .openHandle => true | .closeHandle => false) false

/-- Outcome oracle for the awaited steps of one mobile connect attempt, in
source order: `isSupported`, the presence wait, the device list check,
`ensurePermission`, `open`, the handshake, then the request loop. -/
structure MobileOracle where
  supported : Bool
  presenceFound : Bool
  devicesFound : Bool
  permission : Except String Unit
  openDevice : Except String Unit
  handshake : Except String Unit
  loopCtx : MobileCtx

/-- One `try { ... } catch { ... }` attempt body of the mobile
`connectAndGetPublicKey` (lines 54-160), with the handle events it emits.
The success path closes before returning (line 144); the catch block always
runs `try { await TrezorUSB.close(); } catch {}` (line 151), so every
failing path also records a close. -/
def runMobileAttempt (o : MobileOracle) :
    Except String (List Nat) × List AttemptEvent :=
  if o.supported = false then (.error "Native USB not supported", [.closeHandle])
  else if o.presenceFound = false then
    (.error "No Trezor device found", [.closeHandle])
  else if o.devicesFound = false then
    (.error "No Trezor device found after presence confirmed", [.closeHandle])
  else match o.permission with
  | .error m => (.error m, [.closeHandle])
  | .ok _ => match o.openDevice with
    | .error m => (.error m, [.closeHandle])
    | .ok _ => match o.handshake with
      | .error m => (.error m, [.openHandle, .closeHandle])
      | .ok _ => ((runMobileLoop o.loopCtx).result, [.openHandle, .closeHandle])

/-- Outcome oracle for the awaited steps of one overlay connect attempt, in
source order: `isSupported`, the device list check, `ensurePermission`,
`open`, the handshake, then the single public-key exchange and decode. -/
structure OverlayOracle where
  supported : Bool
  devicesFound : Bool
  permission : Except String Unit
  openDevice : Except String Unit
  handshake : Except String Unit
  keyResult : Except String (List Nat)

/-- One `try { ... } catch { ... }` attempt body of the overlay
`connectAndGetPublicKey` (lines 34-70), with the handle events it emits.
The success path closes before returning (line 55), but the catch block
(lines 57-69) contains no `TrezorUSB.close()` call, so a failure after the
open leaves the handle open. -/
def runOverlayAttempt (o : OverlayOracle) :
    Except String (List Nat) × List AttemptEvent :=
  if o.supported = false then (.error "Native USB not supported", [])
  else if o.devicesFound = false then (.error "No Trezor device found", [])
  else match o.permission with
  | .error m => (.error m, [])
  | .ok _ => match o.openDevice with
    | .error m => (.error m, [])
    | .ok _ => match o.handshake with
      | .error m => (.error m, [.openHandle])
      | .ok _ => match o.keyResult with
        | .error m => (.error m, [.openHandle])
        | .ok key => (.ok key, [.openHandle, .closeHandle])

/-- An overlay attempt whose handshake throws after the device was opened. -/
def overlayHandshakeFailOracle : OverlayOracle :=
  ⟨true, true, .ok (), .ok (), .error "Handshake failed: unexpected response", .ok []⟩

/-- Claim C4 (counterexample): in the overlay bridge an attempt that opens
the device and then fails in the handshake ends with the handle still open
— the catch block of the overlay `connectAndGetPublicKey` never closes the
`DeviceHandle`, so this exit path violates the claim. -/
theorem handle_close_counterexample :
    (runOverlayAttempt overlayHandshakeFailOracle).2 = [.openHandle]
    ∧ handleOpenAtEnd (runOverlayAttempt overlayHandshakeFailOracle).2 = true := by
  constructor <;> rfl

/-- Claim C4 (amended): in the mobile bridge every exit path of a connect
attempt — success, device failure or thrown exception — closes the opened
`DeviceHandle` before the attempt ends; in the overlay bridge only the
successful exit path closes the handle. -/
theorem handle_closed_on_exit_amended :
    (∀ o : MobileOracle, handleOpenAtEnd (runMobileAttempt o).2 = false)
    ∧ (∀ (o : OverlayOracle) (key : List Nat),
      (runOverlayAttempt o).1 = .ok key →
      handleOpenAtEnd (runOverlayAttempt o).2 = false) := by
  constructor
  · intro o
    obtain ⟨s, p, d, perm, od, hs, lc⟩ := o
    cases s <;> cases p <;> cases d <;> cases perm <;> cases od <;> cases hs <;>
      simp [runMobileAttempt, handleOpenAtEnd]
  · intro o key h
    obtain ⟨s, d, perm, od, hs, kr⟩ := o
    cases s <;> cases d <;> cases perm <;> cases od <;> cases hs <;> cases kr <;>
      simp_all [runOverlayAttempt, handleOpenAtEnd]

/-- A mobile request-loop environment that never answers (all responses
unparsed), used to instantiate an attempt. -/
def idleLoopCtx : MobileCtx := ⟨fun _ => ⟨0, []⟩, false, fun _ => none⟩

/-- A mobile attempt in which every step succeeds. -/
def mobileOkOracle : MobileOracle := ⟨true, true, true, .ok (), .ok (), .ok (), idleLoopCtx⟩

/-- An overlay attempt in which every step succeeds. -/
def overlayOkOracle : OverlayOracle := ⟨true, true, .ok (), .ok (), .ok (), .ok [1, 2, 3]⟩

/-- Witness for C4 (amended): a fully successful mobile attempt and a fully
successful overlay attempt both end with the handle closed, by
`handle_closed_on_exit_amended`. -/
theorem handle_closed_on_exit_amended_witness :
    handleOpenAtEnd (runMobileAttempt mobileOkOracle).2 = false
    ∧ handleOpenAtEnd (runOverlayAttempt overlayOkOracle).2 = false :=
  ⟨handle_closed_on_exit_amended.1 mobileOkOracle,
   handle_closed_on_exit_amended.2 overlayOkOracle [1, 2, 3] rfl⟩

/-- The apostrophe character, the hardened marker of BIP-32 path parts. -/
def apoChar : Char := Char.ofNat 39

/-- JS `String.prototype.split` with a one-character separator, on the
character list of the string. -/
def splitOnChar (c : Char) : List Char → List (List Char)
  | [] => [[]]
  | x :: xs =>
    if x = c then [] :: splitOnChar c xs
    else match splitOnChar c xs with
      | [] => [[x]]
      | g :: gs => (x :: g) :: gs

/-- JS `String.prototype.trim` on the character list: drop whitespace from
both ends. -/
def trimChars (l : List Char) : List Char :=
  ((l.dropWhile Char.isWhitespace).reverse.dropWhile Char.isWhitespace).reverse

/-- The `replace(/^m\//, '')` of `bip32Path`: strip one leading `m/`. -/
def stripLeadingMSlash (l : List Char) : List Char :=
  match l with
  | 'm' :: '/' :: rest => rest
  | _ => l

/-- JS `p.replace("'", '')`: remove the first apostrophe, if any. -/
def removeFirstApo : List Char → List Char
  | [] => []
  | x :: xs => if x = apoChar then xs else x :: removeFirstApo xs

/-- JS `p.endsWith("'")` on the character list. -/
def endsWithApo (l : List Char) : Bool :=
  match l.reverse with
  | [] => false
  | c :: _ => c = apoChar

/-- JS `parseInt(s, 10)` for the non-negative decimal inputs this codebase
passes it: the value of the leading digit run, `none` for `NaN` (no leading
digit). -/
def parseIntDec (l : List Char) : Option Nat :=
  let ds := l.takeWhile Char.isDigit
  if ds = [] then none
  else some (ds.foldl (fun acc c => acc * 10 + (c.toNat - 48)) 0)

/-- `bip32Path` from `src/mobile/src/services/rpc/rpcConfig.ts` (lines
100-109, identical in `src/unnamed/part_009`): trim, strip a leading `m/`,
split on `/`; each part is hardened when it ends in an apostrophe, and maps
to `(n | 0x80000000) >>> 0` (hardened) or `n >>> 0`. A `NaN` parse maps to
`0x80000000` or `0` respectively, as the JS bitwise coercions do. -/
def bip32Path (path : String) : List Nat :=
  let m := trimChars path.toList
  let s := stripLeadingMSlash m
  (splitOnChar '/' s).map fun p =>
    let hardened := endsWithApo p
    match parseIntDec (removeFirstApo p) with
    | some n => if hardened then (n ||| 0x80000000) % 2 ^ 32 else n % 2 ^ 32
    | none => if hardened then 0x80000000 else 0

/-- Claim C9: parsing the derivation path `m/44'/501'/0'` yields exactly 3
entries, each with the hardened bit `0x80000000` set, whose unhardened
values are 44, 501 and 0. -/
theorem bip32Path_solana_path :
    bip32Path "m/44'/501'/0'" = [0x8000002C, 0x800001F5, 0x80000000]
    ∧ (bip32Path "m/44'/501'/0'").length = 3
    ∧ (bip32Path "m/44'/501'/0'").map (fun x => x.testBit 31) = [true, true, true]
    ∧ (bip32Path "m/44'/501'/0'").map (fun x => x % 0x80000000) = [44, 501, 0] := by
  refine ⟨?_, ?_, ?_, ?_⟩ <;> decide
